import Mathlib

/-!
Shallow embedding of the core of `src/quiz_application.py`:
the `Question` / `QuizResult` data classes, the `HighScoreManager`
leaderboard store and the `QuizEngine` session state machine.

Python dictionaries are modelled as association lists with `List.lookup`;
a raised `KeyError` is modelled as `Option.none`; Python `float` percentages
are modelled as rationals; Python `int` as `Int`.  File persistence
(`_save_scores`, `_load_scores`) is outside the scope of the claims and is
not modelled: the store is passed and returned explicitly.
-/

namespace Quiz

/-- Embeds the `Question` data class (`quiz_application.py`, lines 19-33):
prompt, ordered option texts, 0-based correct index, time limit, reward
marks and penalty marks. -/
structure Question where
  question : String
  options : List String
  correct_answer : Nat
  time_limit : Nat
  marks : Nat
  negative_marks : Nat
deriving DecidableEq

/-- Embeds `Question.is_correct` (line 31-33): the submitted integer equals the
correct index. The submitted answer is a Python `int`, hence `Int`. -/
def Question.is_correct (q : Question) (answer : Int) : Bool :=
  answer = (q.correct_answer : Int)

/-- Embeds the `QuizResult` data class (lines 39-64), without the wall-clock
timestamp (side effect, irrelevant to every claim). -/
structure QuizResult where
  department : String
  difficulty : String
  score : Int
  total_marks : Nat
  percentage : ℚ
  player_name : String
deriving DecidableEq

/-- Embeds `QuizResult.passed` (lines 62-64): 80 percent threshold. -/
def QuizResult.passed (r : QuizResult) : Bool :=
  (80 : ℚ) ≤ r.percentage

/-- A stored leaderboard entry: the projection `QuizResult.to_dict`
(lines 52-60) keeps player name, score, total marks and percentage. -/
structure Entry where
  player_name : String
  score : Int
  total_marks : Nat
  percentage : ℚ
deriving DecidableEq

/-- Embeds `QuizResult.to_dict` (lines 52-60). -/
def QuizResult.to_dict (r : QuizResult) : Entry :=
  ⟨r.player_name, r.score, r.total_marks, r.percentage⟩

/-- The Python sort key `lambda x: (-x['percentage'], -x['score'])`
(line 115), compared lexicographically (Python tuple comparison). -/
def Entry.sortKey (e : Entry) : ℚ ×ₗ ℤ :=
  toLex (-e.percentage, -e.score)

/-- The order `add_score` sorts by: ascending in the Python key
`(-percentage, -score)`, i.e. percentage descending then score descending. -/
def scoreLe (a b : Entry) : Prop :=
  a.sortKey ≤ b.sortKey

instance : DecidableRel scoreLe := fun a b =>
  inferInstanceAs (Decidable (a.sortKey ≤ b.sortKey))

instance : IsTotal Entry scoreLe :=
  ⟨fun a b => le_total a.sortKey b.sortKey⟩

instance : IsTrans Entry scoreLe :=
  ⟨fun _ _ _ hab hbc => le_trans hab hbc⟩

/-- One leaderboard bucket: the ranked list stored under a
(department, difficulty) key. -/
abbrev Bucket := List Entry

/-- The inner mapping difficulty → bucket. -/
abbrev DiffScores := List (String × Bucket)

/-- The full store `HighScoreManager.scores`:
department → difficulty → bucket. -/
abbrev Scores := List (String × DiffScores)

/-- The body of `HighScoreManager.add_score` acting on one bucket
(lines 112-118): append the new entry, sort by the key
`(-percentage, -score)` (Python `list.sort` is a stable sort; so is
`List.insertionSort`), keep only the top 10. -/
def add_score_bucket (bucket : Bucket) (e : Entry) : Bucket :=
  (List.insertionSort scoreLe (bucket ++ [e])).take 10

/-- Assignment `d[k] = v` to a key that is already present: replace the
value stored under `k`, keep every other binding. -/
def updateAssoc {α : Type} (l : List (String × α)) (k : String) (v : α) :
    List (String × α) :=
  l.map fun p => if p.1 = k then (k, v) else p

/-- Embeds `HighScoreManager.add_score` (lines 109-119).  The first statement
`self.scores[result.department][result.difficulty]` is an unguarded
double dictionary lookup: a missing department or difficulty key raises
`KeyError`, modelled as `none`.  Otherwise the bucket is appended to,
sorted, truncated to 10 and written back. -/
def add_score (scores : Scores) (r : QuizResult) : Option Scores :=
  match scores.lookup r.department with
  | none => none
  | some dmap =>
    match dmap.lookup r.difficulty with
    | none => none
    | some bucket =>
      some (updateAssoc scores r.department
        (updateAssoc dmap r.difficulty (add_score_bucket bucket r.to_dict)))

/-- The department names of `_create_default_structure` (lines 90-91). -/
def default_departments : List String :=
  ["Electrical Engineering", "Computer Science",
   "Business Administration", "Mathematics"]

/-- The difficulty names of `_create_default_structure` (line 92). -/
def default_difficulties : List String :=
  ["Easy", "Medium", "Hard", "Expert"]

/-- Embeds `HighScoreManager._create_default_structure` (lines 88-99): an empty
bucket for every known department × difficulty pair. -/
def create_default_structure : Scores :=
  default_departments.map fun d =>
    (d, default_difficulties.map fun f => (f, ([] : Bucket)))

/-- Embeds `HighScoreManager.get_leaderboard` (lines 121-123):
`self.scores.get(department, {}).get(difficulty, [])`. -/
def get_leaderboard (scores : Scores) (department difficulty : String) :
    Bucket :=
  match scores.lookup department with
  | none => []
  | some dmap => (dmap.lookup difficulty).getD []

/-- The mutable part of `QuizEngine` that the session operations touch
(lines 141-144): loaded questions, 0-based cursor, running score, total
marks.  The cursor is a Python `int`, hence `Int` (the code itself guards
`0 <= self.current_question_index` in `get_current_question`). -/
structure EngineState where
  current_questions : List Question
  current_question_index : Int
  score : Int
  total_marks : Nat
deriving DecidableEq

/-- The state `QuizEngine.__init__` establishes (lines 141-144). -/
def initial_state : EngineState := ⟨[], 0, 0, 0⟩

/-- The question catalog `QuizEngine.all_questions`:
department → difficulty → ordered question list. -/
abbrev Catalog := List (String × List (String × List Question))

/-- Embeds `QuizEngine.load_quiz` (lines 168-190): `False` when the department or
the difficulty is unknown; otherwise install the question list, reset the
cursor and the score to 0 and the total marks to the sum of the rewards,
and return `True`.  Note: an empty question list is not rejected. -/
def load_quiz (catalog : Catalog) (department difficulty : String)
    (s : EngineState) : Bool × EngineState :=
  match catalog.lookup department with
  | none => (false, s)
  | some dmap =>
    match dmap.lookup difficulty with
    | none => (false, s)
    | some qs =>
      (true,
        { current_questions := qs
          current_question_index := 0
          score := 0
          total_marks := (qs.map Question.marks).sum })

/-- Embeds `QuizEngine.get_current_question` (lines 192-196): the question at the
cursor when `0 <= index < len(questions)`, else `None`. -/
def get_current_question (s : EngineState) : Option Question :=
  if 0 ≤ s.current_question_index ∧
      s.current_question_index < (s.current_questions.length : Int) then
    s.current_questions[s.current_question_index.toNat]?
  else
    none

/-- The feedback string of the timeout branch (line 211), emoji elided. -/
def timeout_feedback (q : Question) : String :=
  "Times up! (-" ++ toString q.negative_marks ++ " marks)"

/-- The feedback string of the correct branch (line 217), emoji elided. -/
def correct_feedback (q : Question) : String :=
  "Correct! (+" ++ toString q.marks ++ " marks)"

/-- The feedback string of the wrong branch (lines 222-223), emoji elided.
Python indexes `question.options[question.correct_answer]`, total under the
catalog invariant that the correct index is in range; out of range the
model substitutes `""` where Python would raise. -/
def wrong_feedback (q : Question) : String :=
  "Wrong! Correct answer: " ++ (q.options.getD q.correct_answer "") ++
    " (-" ++ toString q.negative_marks ++ " marks)"

/-- Embeds `QuizEngine.submit_answer` (lines 198-224): returns the Python triple
`(is_correct, points_earned, feedback)` together with the updated state.
No current question: `(False, 0, "No question available")`, state
untouched.  `None` (timeout): minus the penalty.  Correct index: plus the
reward.  Anything else (in range or not): minus the penalty. -/
def submit_answer (s : EngineState) (answer : Option Int) :
    (Bool × Int × String) × EngineState :=
  match get_current_question s with
  | none => ((false, 0, "No question available"), s)
  | some question =>
    match answer with
    | none =>
      let points : Int := -(question.negative_marks : Int)
      ((false, points, timeout_feedback question),
        { s with score := s.score + points })
    | some a =>
      if question.is_correct a then
        let points : Int := (question.marks : Int)
        ((true, points, correct_feedback question),
          { s with score := s.score + points })
      else
        let points : Int := -(question.negative_marks : Int)
        ((false, points, wrong_feedback question),
          { s with score := s.score + points })

/-- Embeds `QuizEngine.next_question` (lines 226-229): increment the cursor
unconditionally, then report whether it is still inside the list. -/
def next_question (s : EngineState) : Bool × EngineState :=
  let s2 := { s with current_question_index := s.current_question_index + 1 }
  (decide (s2.current_question_index < (s2.current_questions.length : Int)), s2)

/-- Embeds `QuizEngine.is_quiz_complete` (lines 231-233): cursor at or past the
end of the list. -/
def is_quiz_complete (s : EngineState) : Bool :=
  decide ((s.current_questions.length : Int) ≤ s.current_question_index)

/-- Embeds `QuizEngine.get_progress` (lines 235-237). -/
def get_progress (s : EngineState) : Int × Nat :=
  (s.current_question_index + 1, s.current_questions.length)

/-- The percentage computation of `QuizEngine.get_final_result` (line 242):
`(score / total_marks * 100) if total_marks > 0 else 0`. -/
def final_percentage (score : Int) (total_marks : Nat) : ℚ :=
  if 0 < total_marks then (score : ℚ) / (total_marks : ℚ) * 100 else 0

/-- Embeds `QuizEngine.get_final_result` (lines 239-246): build the result, hand
it to `add_score` (whose `KeyError` propagates, hence `Option`), return it.
There is no completion check and no already-finalized check. -/
def get_final_result (s : EngineState) (scores : Scores)
    (department difficulty player_name : String) :
    Option (QuizResult × Scores) :=
  let r : QuizResult :=
    ⟨department, difficulty, s.score, s.total_marks,
      final_percentage s.score s.total_marks, player_name⟩
  match add_score scores r with
  | none => none
  | some scores2 => some (r, scores2)

/-- Iterated `next_question`, for statements about calling `advance()`
`n` times. -/
def advanceN (s : EngineState) : Nat → EngineState
  | 0 => s
  | n + 1 => (next_question (advanceN s n)).2

/-- The engine states reachable through the public mutating operations:
the freshly constructed engine, `load_quiz`, `submit_answer` and
`next_question` (`advance`). -/
inductive Reachable (catalog : Catalog) : EngineState → Prop
  | init : Reachable catalog initial_state
  | load (department difficulty : String) {s : EngineState} :
      Reachable catalog s →
      Reachable catalog (load_quiz catalog department difficulty s).2
  | submit (answer : Option Int) {s : EngineState} :
      Reachable catalog s → Reachable catalog (submit_answer s answer).2
  | advance {s : EngineState} :
      Reachable catalog s → Reachable catalog (next_question s).2


/-! ### Helper lemmas -/

/-- When the cursor is at or past the end of the list there is no current
question. -/
theorem get_current_question_eq_none (s : EngineState)
    (h : (s.current_questions.length : Int) ≤ s.current_question_index) :
    get_current_question s = none := by
  unfold get_current_question
  rw [if_neg]
  intro hc
  exact absurd hc.2 (not_lt.mpr h)

/-- Submitting an answer never changes the loaded questions nor the
cursor. -/
theorem submit_answer_frame (s : EngineState) (a : Option Int) :
    (submit_answer s a).2.current_questions = s.current_questions ∧
    (submit_answer s a).2.current_question_index = s.current_question_index := by
  unfold submit_answer
  cases get_current_question s with
  | none => exact ⟨rfl, rfl⟩
  | some q =>
    cases a with
    | none => exact ⟨rfl, rfl⟩
    | some i =>
      by_cases hc : q.is_correct i <;> simp [hc]

/-- Advancing increments the cursor and keeps everything else. -/
theorem next_question_snd (s : EngineState) :
    (next_question s).2 =
      { s with current_question_index := s.current_question_index + 1 } := rfl

/-- Loading either leaves the state untouched (unknown key) or installs a
fresh session with the cursor at 0. -/
theorem load_quiz_snd (catalog : Catalog) (department difficulty : String)
    (s : EngineState) :
    (load_quiz catalog department difficulty s).2 = s ∨
    (load_quiz catalog department difficulty s).2.current_question_index = 0 := by
  rcases h1 : catalog.lookup department with _ | dmap
  · left
    simp [load_quiz, h1]
  · rcases h2 : dmap.lookup difficulty with _ | qs
    · left
      simp [load_quiz, h1, h2]
    · right
      simp [load_quiz, h1, h2]


/-! ### C1: scoring deltas and outcomes -/

/-- C1.  For every session state with a current question: the timeout
sentinel (`None`) yields delta `-penalty` with the timeout outcome; a valid
option index equal to the correct index yields delta `+reward` with the
correct outcome; a valid option index different from the correct index
yields delta `-penalty` with the incorrect outcome; in each case
`submit_answer` adds exactly that delta to the running score. -/
theorem submit_answer_scoring (s : EngineState) (q : Question)
    (hq : get_current_question s = some q) :
    (submit_answer s none =
      ((false, -(q.negative_marks : Int), timeout_feedback q),
        { s with score := s.score + -(q.negative_marks : Int) })) ∧
    (∀ i : Nat, i < q.options.length →
      (i = q.correct_answer →
        submit_answer s (some (i : Int)) =
          ((true, (q.marks : Int), correct_feedback q),
            { s with score := s.score + (q.marks : Int) })) ∧
      (i ≠ q.correct_answer →
        submit_answer s (some (i : Int)) =
          ((false, -(q.negative_marks : Int), wrong_feedback q),
            { s with score := s.score + -(q.negative_marks : Int) }))) := by
  refine ⟨?_, fun i _ => ⟨fun heq => ?_, fun hne => ?_⟩⟩
  · simp [submit_answer, hq]
  · subst heq
    simp [submit_answer, hq, Question.is_correct]
  · have hne2 : (i : Int) ≠ (q.correct_answer : Int) := by
      exact_mod_cast hne
    simp [submit_answer, hq, Question.is_correct, hne2]

/-- Witness for C1 at a concrete session: one question with reward 10,
penalty 5, correct index 0, answered with the sentinel, with 0 and
with 1. -/
def wQ1 : Question := ⟨"q", ["a", "b"], 0, 30, 10, 5⟩

/-- The concrete one-question session the C1 witness runs on. -/
def wS1 : EngineState := ⟨[wQ1], 0, 0, 10⟩

/-- Witness: C1 applied at `wS1` / `wQ1` with answers sentinel, 0, 1. -/
theorem submit_answer_scoring_witness :
    submit_answer wS1 none =
      ((false, -5, timeout_feedback wQ1), { wS1 with score := -5 }) ∧
    submit_answer wS1 (some 0) =
      ((true, 10, correct_feedback wQ1), { wS1 with score := 10 }) ∧
    submit_answer wS1 (some 1) =
      ((false, -5, wrong_feedback wQ1), { wS1 with score := -5 }) := by
  have h := submit_answer_scoring wS1 wQ1 rfl
  refine ⟨h.1, ((h.2 0 (by decide)).1 rfl), ((h.2 1 (by decide)).2 (by decide))⟩

/-! ### C2: leaderboard bucket bound, order, insert-then-truncate -/

/-- C2.  After any insertion the bucket has at most 10 entries and is
non-increasing in (percentage, score) lexicographic order; the entry is
first added (the pre-truncation list counts it once more than the old
bucket) and only then cut — in particular with fewer than 10 stored
entries the new entry is always kept, however low it ranks. -/
theorem add_score_bucket_ranked (b : Bucket) (e : Entry) :
    (add_score_bucket b e).length ≤ 10 ∧
    List.Sorted scoreLe (add_score_bucket b e) ∧
    (∀ a c : Entry, scoreLe a c ↔
      (c.percentage < a.percentage ∨
        (a.percentage = c.percentage ∧ c.score ≤ a.score))) ∧
    (List.insertionSort scoreLe (b ++ [e])).count e = b.count e + 1 ∧
    (b.length < 10 → e ∈ add_score_bucket b e) := by
  refine ⟨?_, ?_, ?_, ?_, ?_⟩
  · exact List.length_take_le 10 _
  · exact (List.sorted_insertionSort scoreLe (b ++ [e])).sublist
      (List.take_sublist 10 _)
  · intro a c
    unfold scoreLe Entry.sortKey
    rw [Prod.Lex.le_iff]
    constructor
    · rintro (h | ⟨h1, h2⟩)
      · exact Or.inl (by simpa using h)
      · exact Or.inr ⟨by simpa using neg_inj.mp h1, by simpa using h2⟩
    · rintro (h | ⟨h1, h2⟩)
      · exact Or.inl (by simpa using h)
      · exact Or.inr ⟨by simp [h1], by simpa using h2⟩
  · rw [(List.perm_insertionSort scoreLe (b ++ [e])).count_eq]
    simp
  · intro hlt
    have hlen : (List.insertionSort scoreLe (b ++ [e])).length = b.length + 1 := by
      rw [(List.perm_insertionSort scoreLe (b ++ [e])).length_eq]
      simp
    have hall : add_score_bucket b e = List.insertionSort scoreLe (b ++ [e]) := by
      unfold add_score_bucket
      exact List.take_of_length_le (by omega)
    rw [hall, List.mem_insertionSort]
    simp

/-- The concrete entry the C2 witness inserts. -/
def wE2 : Entry := ⟨"Bob", 3, 10, 30⟩

/-- Witness: C2 applied to the empty bucket and `wE2`; the inner
hypothesis `length < 10` is discharged at the concrete input. -/
theorem add_score_bucket_ranked_witness :
    ([] : Bucket).length < 10 ∧ wE2 ∈ add_score_bucket [] wE2 :=
  ⟨by decide, (add_score_bucket_ranked [] wE2).2.2.2.2 (by decide)⟩

/-! ### C8: submit with no current question -/

/-- C8.  When the cursor is at or past the end of the question list,
`submit_answer` reports the no-active-question error in its returned
triple — `(False, 0, "No question available")` — and leaves the state,
in particular the score, unchanged: the error is surfaced to the caller
and nothing is scored. -/
theorem submit_answer_no_active_question (s : EngineState) (a : Option Int)
    (h : (s.current_questions.length : Int) ≤ s.current_question_index) :
    submit_answer s a = ((false, 0, "No question available"), s) := by
  have hq : get_current_question s = none := get_current_question_eq_none s h
  simp [submit_answer, hq]

/-- Witness: C8 applied to a completed one-question session. -/
theorem submit_answer_no_active_question_witness :
    submit_answer ⟨[wQ1], 1, 10, 10⟩ (some 0) =
      ((false, 0, "No question available"), ⟨[wQ1], 1, 10, 10⟩) :=
  submit_answer_no_active_question ⟨[wQ1], 1, 10, 10⟩ (some 0) (by decide)


/-! ### C4: out-of-range answers -/

/-- Counterexample to C4 as stated: on a session whose current question has
2 options (correct index 0, penalty 5), submitting the out-of-range answer
5 is not rejected — it is scored exactly like a wrong answer, and the
running score drops from 0 to -5. -/
theorem invalid_answer_scored_cex :
    ((wQ1.options.length : Int) ≤ 5) ∧
    wS1.score = 0 ∧
    submit_answer wS1 (some 5) =
      ((false, -5, wrong_feedback wQ1), { wS1 with score := -5 }) ∧
    (submit_answer wS1 (some 5)).2.score ≠ wS1.score := by
  exact ⟨by decide, rfl, rfl, by decide⟩

/-- C4 amended.  An answer outside the option index range that is not the
timeout sentinel is not rejected with an error and not clamped: the code
scores it as an incorrect answer, returning `(False, -penalty, wrong
feedback)` and subtracting the penalty from the running score. -/
theorem out_of_range_scored_as_incorrect (s : EngineState) (q : Question)
    (hq : get_current_question s = some q)
    (hvalid : q.correct_answer < q.options.length)
    (i : Int) (hout : i < 0 ∨ (q.options.length : Int) ≤ i) :
    submit_answer s (some i) =
      ((false, -(q.negative_marks : Int), wrong_feedback q),
        { s with score := s.score + -(q.negative_marks : Int) }) := by
  have hvi : (q.correct_answer : Int) < (q.options.length : Int) := by
    exact_mod_cast hvalid
  have hne : i ≠ (q.correct_answer : Int) := by
    rcases hout with h | h <;> omega
  simp [submit_answer, hq, Question.is_correct, hne]

/-- Witness: C4 amended applied at the concrete session `wS1` with the
out-of-range answer 7. -/
theorem out_of_range_scored_as_incorrect_witness :
    submit_answer wS1 (some 7) =
      ((false, -5, wrong_feedback wQ1), { wS1 with score := -5 }) := by
  have h := out_of_range_scored_as_incorrect wS1 wQ1 rfl (by decide) 7
    (Or.inr (by decide))
  simpa using h

/-! ### C9: final percentage -/

/-- C9.  Whenever `get_final_result` returns a result, its percentage is
`100 * score / total_marks` when the total is positive, `0` when the total
is `0` (the guard avoids the division), and it is negative whenever the
score is negative and the total positive. -/
theorem final_result_percentage (s : EngineState) (scores : Scores)
    (department difficulty player_name : String) (r : QuizResult)
    (scores2 : Scores)
    (h : get_final_result s scores department difficulty player_name =
      some (r, scores2)) :
    (0 < s.total_marks →
      r.percentage = 100 * (s.score : ℚ) / (s.total_marks : ℚ)) ∧
    (s.total_marks = 0 → r.percentage = 0) ∧
    (s.score < 0 → 0 < s.total_marks → r.percentage < 0) := by
  have hr : r.percentage = final_percentage s.score s.total_marks := by
    simp only [get_final_result] at h
    rcases hadd : add_score scores
        ⟨department, difficulty, s.score, s.total_marks,
          final_percentage s.score s.total_marks, player_name⟩ with _ | sc
    · rw [hadd] at h
      simp at h
    · rw [hadd] at h
      simp only [Option.some.injEq, Prod.mk.injEq] at h
      rw [← h.1]
  refine ⟨fun hpos => ?_, fun hzero => ?_, fun hneg hpos => ?_⟩
  · rw [hr, final_percentage, if_pos hpos, div_mul_eq_mul_div, mul_comm]
  · rw [hr, final_percentage, if_neg (by omega)]
  · rw [hr, final_percentage, if_pos hpos]
    have h1 : (s.score : ℚ) < 0 := by exact_mod_cast hneg
    have h2 : (0 : ℚ) < (s.total_marks : ℚ) := by exact_mod_cast hpos
    exact mul_neg_of_neg_of_pos (div_neg_of_neg_of_pos h1 h2) (by norm_num)

/-- The session the C9 witness finalizes: completed, score -5 out of 10. -/
def wS9 : EngineState := ⟨[wQ1], 1, -5, 10⟩

/-- The store the C9 witness finalizes into. -/
def wStore9 : Scores := [("D", [("E", [])])]

/-- The result record the C9 witness obtains. -/
def wR9 : QuizResult :=
  ⟨"D", "E", -5, 10, final_percentage (-5) 10, "Alice"⟩

/-- The store the C9 witness obtains. -/
def wScores9 : Scores :=
  updateAssoc wStore9 "D"
    (updateAssoc [("E", [])] "E" (add_score_bucket [] wR9.to_dict))

/-- Witness: C9 applied to the concrete finalization of `wS9`, whose
negative score makes the percentage negative. -/
theorem final_result_percentage_witness :
    (0 < wS9.total_marks →
      wR9.percentage = 100 * (wS9.score : ℚ) / (wS9.total_marks : ℚ)) ∧
    (wS9.total_marks = 0 → wR9.percentage = 0) ∧
    (wS9.score < 0 → 0 < wS9.total_marks → wR9.percentage < 0) :=
  final_result_percentage wS9 wStore9 "D" "E" "Alice" wR9 wScores9 rfl


/-! ### C5: load -/

/-- A catalog whose only key resolves to an empty question list. -/
def cexCatalog5 : Catalog := [("D", [("E", [])])]

/-- Counterexample to C5 as stated: loading a key that resolves to an
empty question list does not fail — `load_quiz` returns `True` and
installs a session with zero questions (which is immediately complete). -/
theorem empty_quiz_load_succeeds_cex :
    (load_quiz cexCatalog5 "D" "E" initial_state).1 = true ∧
    (load_quiz cexCatalog5 "D" "E" initial_state).2.current_questions = [] ∧
    is_quiz_complete (load_quiz cexCatalog5 "D" "E" initial_state).2 = true := by
  exact ⟨rfl, rfl, rfl⟩

/-- C5 amended.  `load_quiz` fails (returns `False`, the code's catalog-miss
signal, leaving the state untouched) when the category or the difficulty is
unknown; when the key resolves to a question list — empty or not — it
succeeds, resetting the cursor to 0, the score to 0 and the total marks to
the sum of the questions' reward marks.  An empty list is not rejected. -/
theorem load_quiz_behavior (catalog : Catalog) (department difficulty : String)
    (s : EngineState) :
    (catalog.lookup department = none →
      load_quiz catalog department difficulty s = (false, s)) ∧
    (∀ dmap, catalog.lookup department = some dmap →
      dmap.lookup difficulty = none →
      load_quiz catalog department difficulty s = (false, s)) ∧
    (∀ dmap qs, catalog.lookup department = some dmap →
      dmap.lookup difficulty = some qs →
      load_quiz catalog department difficulty s =
        (true, ⟨qs, 0, 0, (qs.map Question.marks).sum⟩)) := by
  refine ⟨fun h1 => ?_, fun dmap h1 h2 => ?_, fun dmap qs h1 h2 => ?_⟩
  · simp [load_quiz, h1]
  · simp [load_quiz, h1, h2]
  · simp [load_quiz, h1, h2]

/-- A catalog with one department, one difficulty and one question, for
the C5 witness. -/
def wCatalog5 : Catalog := [("D", [("E", [wQ1])])]

/-- Witness: C5 amended applied to concrete lookups — an unknown
department, an unknown difficulty, and a successful load. -/
theorem load_quiz_behavior_witness :
    load_quiz wCatalog5 "X" "E" initial_state = (false, initial_state) ∧
    load_quiz wCatalog5 "D" "X" initial_state = (false, initial_state) ∧
    load_quiz wCatalog5 "D" "E" initial_state = (true, ⟨[wQ1], 0, 0, 10⟩) := by
  refine ⟨(load_quiz_behavior wCatalog5 "X" "E" initial_state).1 rfl,
    (load_quiz_behavior wCatalog5 "D" "X" initial_state).2.1 [("E", [wQ1])] rfl rfl,
    ?_⟩
  have h := (load_quiz_behavior wCatalog5 "D" "E" initial_state).2.2
    [("E", [wQ1])] [wQ1] rfl rfl
  simpa using h

/-! ### C6: advance called N times, then once more -/

/-- Iterating `advance` adds the iteration count to the cursor and touches
nothing else. -/
theorem advanceN_state (s : EngineState) (n : Nat) :
    (advanceN s n).current_questions = s.current_questions ∧
    (advanceN s n).current_question_index = s.current_question_index + n ∧
    (advanceN s n).score = s.score ∧
    (advanceN s n).total_marks = s.total_marks := by
  induction n with
  | zero => simp [advanceN]
  | succ n ih =>
    simp only [advanceN, next_question]
    refine ⟨ih.1, ?_, ih.2.2.1, ih.2.2.2⟩
    rw [ih.2.1]
    push_cast
    ring

/-- C6 amended.  From a freshly loaded session (cursor 0) with `N`
questions, `N` calls to `advance` complete the session (cursor = `N`); the
`(N+1)`th call still returns `False` but is not a no-op: it increments the
cursor to `N + 1`, changing the state. -/
theorem advance_n_then_once_more (s : EngineState)
    (h0 : s.current_question_index = 0) :
    is_quiz_complete (advanceN s s.current_questions.length) = true ∧
    (advanceN s s.current_questions.length).current_question_index =
      (s.current_questions.length : Int) ∧
    (next_question (advanceN s s.current_questions.length)).1 = false ∧
    (next_question (advanceN s s.current_questions.length)).2.current_question_index =
      (s.current_questions.length : Int) + 1 ∧
    (next_question (advanceN s s.current_questions.length)).2 ≠
      advanceN s s.current_questions.length := by
  obtain ⟨hqs, hidx, -, -⟩ := advanceN_state s s.current_questions.length
  rw [h0, zero_add] at hidx
  refine ⟨?_, hidx, ?_, ?_, ?_⟩
  · simp [is_quiz_complete, hqs, hidx]
  · simp [next_question, hqs, hidx]
  · simp [next_question, hidx]
  · intro heq
    have := congrArg EngineState.current_question_index heq
    simp only [next_question] at this
    omega

/-- Counterexample to C6 as stated: on a freshly loaded one-question
session, after one `advance` (`N = 1`) the session is complete; the second
— the `(N+1)`th — call returns `False` but does not leave the state
unchanged: the cursor moves from 1 to 2. -/
theorem advance_extra_call_not_noop_cex :
    is_quiz_complete (advanceN ⟨[wQ1], 0, 10, 10⟩ 1) = true ∧
    (next_question (advanceN ⟨[wQ1], 0, 10, 10⟩ 1)).1 = false ∧
    (next_question (advanceN ⟨[wQ1], 0, 10, 10⟩ 1)).2 ≠
      advanceN ⟨[wQ1], 0, 10, 10⟩ 1 ∧
    (next_question (advanceN ⟨[wQ1], 0, 10, 10⟩ 1)).2.current_question_index = 2 := by
  exact ⟨rfl, rfl, by decide, rfl⟩

/-- Witness: C6 amended applied to the fresh two-question session. -/
theorem advance_n_then_once_more_witness :
    is_quiz_complete (advanceN ⟨[wQ1, wQ1], 0, 0, 20⟩ 2) = true ∧
    (advanceN ⟨[wQ1, wQ1], 0, 0, 20⟩ 2).current_question_index = 2 ∧
    (next_question (advanceN ⟨[wQ1, wQ1], 0, 0, 20⟩ 2)).1 = false ∧
    (next_question (advanceN ⟨[wQ1, wQ1], 0, 0, 20⟩ 2)).2.current_question_index = 3 ∧
    (next_question (advanceN ⟨[wQ1, wQ1], 0, 0, 20⟩ 2)).2 ≠
      advanceN ⟨[wQ1, wQ1], 0, 0, 20⟩ 2 := by
  have h := advance_n_then_once_more ⟨[wQ1, wQ1], 0, 0, 20⟩ rfl
  simpa using h


/-! ### C7: the position invariant over reachable states -/

/-- A session state reached by load, advance, advance on a one-question
catalog: the cursor ends at 2 with only 1 question. -/
def cexState7 : EngineState :=
  (next_question (next_question (load_quiz wCatalog5 "D" "E" initial_state).2).2).2

/-- Counterexample to C7 as stated: `cexState7` is reachable by load and
two advances, yet its cursor (2) exceeds the question count (1), so
`position <= len(questions)` fails; the session also counts as complete
at a position different from the question count. -/
theorem position_invariant_violated_cex :
    Reachable wCatalog5 cexState7 ∧
    cexState7.current_questions.length = 1 ∧
    cexState7.current_question_index = 2 ∧
    ¬ cexState7.current_question_index ≤ (cexState7.current_questions.length : Int) ∧
    is_quiz_complete cexState7 = true ∧
    cexState7.current_question_index ≠ (cexState7.current_questions.length : Int) :=
  ⟨Reachable.advance (Reachable.advance (Reachable.load "D" "E" Reachable.init)),
    rfl, rfl, by decide, rfl, by decide⟩

/-- C7 amended.  In every reachable session state the cursor is
non-negative and the session is complete exactly when the cursor is at or
past the question count; the upper bound `position <= len(questions)` does
not survive advancing a completed session (see the counterexample). -/
theorem reachable_position_invariant (catalog : Catalog) (s : EngineState)
    (h : Reachable catalog s) :
    0 ≤ s.current_question_index ∧
    (is_quiz_complete s = true ↔
      (s.current_questions.length : Int) ≤ s.current_question_index) := by
  have hc : ∀ t : EngineState, is_quiz_complete t = true ↔
      (t.current_questions.length : Int) ≤ t.current_question_index := by
    intro t
    simp [is_quiz_complete]
  refine ⟨?_, hc s⟩
  induction h with
  | init => exact le_refl 0
  | load department difficulty hr ih =>
    rcases load_quiz_snd catalog department difficulty _ with heq | heq
    · rw [heq]
      exact ih
    · rw [heq]
  | submit answer hr ih =>
    rw [(submit_answer_frame _ answer).2]
    exact ih
  | advance hr ih =>
    rw [next_question_snd]
    dsimp only
    omega

/-- Witness: C7 amended applied to the freshly constructed engine state,
which is reachable and (vacuously, zero questions) already complete. -/
theorem reachable_position_invariant_witness :
    0 ≤ initial_state.current_question_index ∧
    (is_quiz_complete initial_state = true ↔
      (initial_state.current_questions.length : Int) ≤
        initial_state.current_question_index) :=
  reachable_position_invariant [] initial_state Reachable.init

/-! ### C3: finalizing twice -/

/-- Looking a key up after updating it: if the key was bound, it is now
bound to the new value. -/
theorem lookup_updateAssoc_self {α : Type} (l : List (String × α))
    (k : String) (v : α) (h : (l.lookup k).isSome) :
    (updateAssoc l k v).lookup k = some v := by
  induction l with
  | nil => simp [List.lookup] at h
  | cons p t ih =>
    obtain ⟨a, w⟩ := p
    by_cases hk : a = k
    · subst hk
      show List.lookup a
        (List.map (fun p => if p.1 = a then (a, v) else p) ((a, w) :: t)) = some v
      rw [List.map_cons, if_pos rfl]
      simp [List.lookup]
    · have hbeq : (k == a) = false := by
        simp [Ne.symm hk]
      show List.lookup k
        (List.map (fun p => if p.1 = k then (k, v) else p) ((a, w) :: t)) = some v
      rw [List.map_cons, if_neg hk]
      have h2 : (List.lookup k t).isSome = true := by
        simpa [List.lookup, hbeq] using h
      simpa [List.lookup, hbeq] using ih h2

/-- One bucket insertion grows the bucket by one entry until the cap. -/
theorem add_score_bucket_length (b : Bucket) (e : Entry)
    (h : b.length ≤ 9) :
    (add_score_bucket b e).length = b.length + 1 := by
  unfold add_score_bucket
  rw [List.length_take, (List.perm_insertionSort scoreLe (b ++ [e])).length_eq]
  simp
  omega

/-- C3 amended.  The code has no already-finalized guard: on a store whose
bucket for the key holds at most 8 entries, finalizing and then finalizing
again both succeed (no `AlreadyFinalized` failure), and the bucket gains
two entries from the two calls, not one. -/
theorem double_finalize_inserts_twice (s1 s2 : EngineState) (scores : Scores)
    (department difficulty name1 name2 : String)
    (dmap : DiffScores) (bucket : Bucket)
    (h1 : scores.lookup department = some dmap)
    (h2 : dmap.lookup difficulty = some bucket)
    (hlen : bucket.length ≤ 8) :
    ∃ r1 scores1 r2 scores2,
      get_final_result s1 scores department difficulty name1 =
        some (r1, scores1) ∧
      get_final_result s2 scores1 department difficulty name2 =
        some (r2, scores2) ∧
      ∃ dmap2 bucket2,
        scores2.lookup department = some dmap2 ∧
        dmap2.lookup difficulty = some bucket2 ∧
        bucket2.length = bucket.length + 2 := by
  set r1 : QuizResult :=
    ⟨department, difficulty, s1.score, s1.total_marks,
      final_percentage s1.score s1.total_marks, name1⟩ with hr1
  set b1 : Bucket := add_score_bucket bucket r1.to_dict with hb1
  set dmap1 : DiffScores := updateAssoc dmap difficulty b1 with hd1
  set scores1 : Scores := updateAssoc scores department dmap1 with hs1
  have hadd1 : add_score scores r1 = some scores1 := by
    unfold add_score
    rw [hr1]
    simp only [h1, h2]
  have hl1 : scores1.lookup department = some dmap1 :=
    lookup_updateAssoc_self scores department dmap1 (by simp [h1])
  have hl2 : dmap1.lookup difficulty = some b1 :=
    lookup_updateAssoc_self dmap difficulty b1 (by simp [h2])
  set r2 : QuizResult :=
    ⟨department, difficulty, s2.score, s2.total_marks,
      final_percentage s2.score s2.total_marks, name2⟩ with hr2
  set b2 : Bucket := add_score_bucket b1 r2.to_dict with hb2
  set dmap2 : DiffScores := updateAssoc dmap1 difficulty b2 with hd2
  set scores2 : Scores := updateAssoc scores1 department dmap2 with hs2
  have hadd2 : add_score scores1 r2 = some scores2 := by
    unfold add_score
    rw [hr2]
    simp only [hl1, hl2]
  refine ⟨r1, scores1, r2, scores2, ?_, ?_, dmap2, b2, ?_, ?_, ?_⟩
  · show (match add_score scores r1 with
        | none => none
        | some sc => some (r1, sc)) = some (r1, scores1)
    rw [hadd1]
  · show (match add_score scores1 r2 with
        | none => none
        | some sc => some (r2, sc)) = some (r2, scores2)
    rw [hadd2]
  · exact lookup_updateAssoc_self scores1 department dmap2 (by simp [hl1])
  · exact lookup_updateAssoc_self dmap1 difficulty b2 (by simp [hl2])
  · have hlb1 : b1.length = bucket.length + 1 :=
      add_score_bucket_length bucket r1.to_dict (by omega)
    have hlb2 : b2.length = b1.length + 1 :=
      add_score_bucket_length b1 r2.to_dict (by omega)
    omega


/-- The one-bucket store the C3 counterexample finalizes into. -/
def cexStore3 : Scores := [("D", [("E", [])])]

/-- One finalization of the (trivially complete, zero-question) session. -/
def finalize_once3 : Option (QuizResult × Scores) :=
  get_final_result initial_state cexStore3 "D" "E" "Alice"

/-- A second finalization of the very same session on the store produced
by the first one. -/
def finalize_twice3 : Option (QuizResult × Scores) :=
  finalize_once3.bind fun p =>
    get_final_result initial_state p.2 "D" "E" "Alice"

/-- Counterexample to C3 as stated: the session is complete, yet the
second `get_final_result` call on the same session succeeds — nothing like
an `AlreadyFinalized` failure exists — and the leaderboard bucket ends up
with two entries from that session, not one. -/
theorem double_finalize_cex :
    is_quiz_complete initial_state = true ∧
    finalize_once3.isSome = true ∧
    finalize_twice3.isSome = true ∧
    (finalize_once3.map fun p => (get_leaderboard p.2 "D" "E").length) =
      some 1 ∧
    (finalize_twice3.map fun p => (get_leaderboard p.2 "D" "E").length) =
      some 2 :=
  ⟨rfl, rfl, rfl, rfl, rfl⟩

/-- Witness: C3 amended applied to the concrete store `cexStore3` with its
empty "D"/"E" bucket. -/
theorem double_finalize_inserts_twice_witness :
    ∃ r1 scores1 r2 scores2,
      get_final_result initial_state cexStore3 "D" "E" "A" =
        some (r1, scores1) ∧
      get_final_result initial_state scores1 "D" "E" "B" =
        some (r2, scores2) ∧
      ∃ dmap2 bucket2,
        scores2.lookup "D" = some dmap2 ∧
        dmap2.lookup "E" = some bucket2 ∧
        bucket2.length = ([] : Bucket).length + 2 :=
  double_finalize_inserts_twice initial_state initial_state cexStore3
    "D" "E" "A" "B" [("E", [])] [] rfl rfl (by decide)

/-! ### C10: recording requires an existing bucket -/

/-- Looking up a key in an association list built by pairing each element
of a key list with a value. -/
theorem lookup_map_pair {β : Type} (g : String → β) (l : List String)
    (d : String) (hd : d ∈ l) :
    (l.map fun x => (x, g x)).lookup d = some (g d) := by
  induction l with
  | nil => cases hd
  | cons a t ih =>
    by_cases hda : d = a
    · subst hda
      simp [List.lookup]
    · have hbeq : (d == a) = false := by
        simp [hda]
      rcases List.mem_cons.mp hd with h | h
      · exact absurd h hda
      · simp [List.lookup, hbeq, ih h]

/-- C10.  `add_score` succeeds exactly when the store already holds a
bucket for the result's (department, difficulty) key — a missing key is an
unguarded lookup failure (`KeyError`, modelled `none`) and no bucket is
created; on the default structure every known department × difficulty key
has its bucket, so recording succeeds. -/
theorem add_score_requires_bucket (scores : Scores) (r : QuizResult) :
    ((add_score scores r).isSome = true ↔
      ∃ dmap bucket, scores.lookup r.department = some dmap ∧
        dmap.lookup r.difficulty = some bucket) ∧
    (r.department ∈ default_departments →
      r.difficulty ∈ default_difficulties →
      (add_score create_default_structure r).isSome = true) := by
  constructor
  · constructor
    · intro h
      unfold add_score at h
      rcases h1 : List.lookup r.department scores with _ | dmap
      · rw [h1] at h
        simp at h
      · rcases h2 : List.lookup r.difficulty dmap with _ | bucket
        · rw [h1] at h
          simp only [h2] at h
          simp at h
        · exact ⟨dmap, bucket, rfl, h2⟩
    · rintro ⟨dmap, bucket, h1, h2⟩
      simp only [add_score, h1, h2]
      rfl
  · intro hd hf
    have h1 : create_default_structure.lookup r.department =
        some (default_difficulties.map fun f => (f, ([] : Bucket))) :=
      lookup_map_pair _ default_departments r.department hd
    have h2 : (default_difficulties.map fun f => (f, ([] : Bucket))).lookup
        r.difficulty = some ([] : Bucket) :=
      lookup_map_pair _ default_difficulties r.difficulty hf
    simp only [add_score, h1, h2]
    rfl

/-- The result the C10 witness records. -/
def wR10 : QuizResult := ⟨"Computer Science", "Easy", 5, 10, 50, "Carol"⟩

/-- Witness: C10 applied to the default structure and a concrete result
whose key is a known department × difficulty pair. -/
theorem add_score_requires_bucket_witness :
    (add_score create_default_structure wR10).isSome = true :=
  (add_score_requires_bucket create_default_structure wR10).2
    (by decide) (by decide)

end Quiz
